import Mathlib

/-!
Shallow embedding of the glyph-atlas manager of `src/atlas.rs` (struct
`Atlas`: `get_glyph`, `location_for`, `get_or_create_texture`, the
RGB-to-RGBA bitmap normalisation) together with theorems settling the
spec claims about it.

Conventions of the embedding:
* Rust `u32` values are `Nat`; additions are guarded against `2 ^ 32`
  (Rust debug semantics: an overflowing `+` aborts), so every `Nat`
  reachable without an error fits in a `u32`.
* Rust `i32` values are `Int`; the cast `as u32` is `asU32` (wrapping).
* `f32` / `f64` values reachable by the claims are exact on the inputs
  involved, and are modelled as `ℚ`.
* Abnormal termination (a failed `unwrap`, the explicit abort in
  `location_for`, arithmetic overflow) is `Except.error`.
* The `wgpu` device/queue are external effects: a texture is its index
  in the `textures` vector, and `queue.write_texture` is recorded as a
  `TexWrite` value in the call output instead of performed.
* The `HashMap<GlyphKey, Glyph>` is an association list; `insert` conses
  and `lookupGlyph` returns the first (hence most recent) binding, which
  matches every observation `get_glyph` makes of the map.
-/

/-- `crossfont::GlyphKey`: the cache key `(font_key, character, size)`.
`FontKey` is an opaque token (here `ℕ`), `Size` is a numeric font size. -/
structure GlyphKey where
  font_key : ℕ
  character : Char
  size : ℚ
  deriving DecidableEq

/-- `atlas.rs` `Glyph`: the cached placement record. All fields are `f32`
in the source, modelled as `ℚ`. -/
structure Glyph where
  uv_top : ℚ
  uv_left : ℚ
  uv_width : ℚ
  uv_height : ℚ
  width : ℚ
  height : ℚ
  top : ℚ
  left : ℚ
  deriving DecidableEq

/-- `crossfont::BitmapBuffer`: the rasterizer output pixel buffer, either
3-channel RGB or 4-channel RGBA bytes. -/
inductive BitmapBuffer where
  | rgba (v : List ℕ)
  | rgb (v : List ℕ)
  deriving DecidableEq

/-- `crossfont::RasterizedGlyph`: bitmap dimensions and bearings are `i32`
in crossfont, hence `Int` here. -/
structure RasterizedGlyph where
  character : Char
  width : Int
  height : Int
  top : Int
  left : Int
  buffer : BitmapBuffer
  deriving DecidableEq

/-- The part of `crossfont::Metrics` that `get_glyph` reads. -/
structure Metrics where
  average_advance : ℚ
  line_height : ℚ
  descent : ℚ
  deriving DecidableEq

/-- The mutable state of `Atlas` (`src/atlas.rs`), minus the rasterizer
(modelled as an explicit function argument) and with the texture vector
reduced to its length, `textures`. -/
structure Atlas where
  glyphs : List (GlyphKey × Glyph)
  textures : ℕ
  active_texture : ℕ
  v_offset : ℕ
  h_offset : ℕ
  row_height : ℕ
  h_size : ℕ
  v_size : ℕ
  deriving DecidableEq

/-- `const DEFAULT_TEXTURE_SIZE: u32 = 4096`. -/
def DEFAULT_TEXTURE_SIZE : ℕ := 4096

/-- The state built by `Atlas::new` (the rasterizer itself is external). -/
def atlasNew : Atlas :=
  { glyphs := []
    textures := 0
    active_texture := 0
    v_offset := 0
    h_offset := 0
    row_height := 0
    h_size := DEFAULT_TEXTURE_SIZE
    v_size := DEFAULT_TEXTURE_SIZE }

/-- First `u32` value that no longer fits: additions reaching it abort. -/
def u32Bound : ℕ := 2 ^ 32

/-- Rust `i32 as u32`: two's-complement wrap into `[0, 2^32)`. -/
def asU32 (i : Int) : ℕ := (i % (u32Bound : Int)).toNat

/-- `HashMap::get` on the association-list model (first binding wins). -/
def lookupGlyph (key : GlyphKey) : List (GlyphKey × Glyph) → Option Glyph
  | [] => none
  | (k, g) :: rest => if k = key then some g else lookupGlyph key rest

/-- `Atlas::location_for` (`src/atlas.rs:164-181`): the shelf-packer cursor
step. Returns the placement origin and the updated state, or an error for
the source abort ("Ran out of texture space") and for `u32` overflow. -/
def locationFor (s : Atlas) (width height : ℕ) :
    Except String ((ℕ × ℕ) × Atlas) :=
  match
    (if s.row_height < height then
      if u32Bound ≤ s.v_offset + s.row_height then
        Except.error "attempt to add with overflow"
      else if s.v_offset + s.row_height > height then
        Except.error "Ran out of texture space"
      else
        Except.ok { s with v_offset := s.v_offset + s.row_height,
                           row_height := height }
    else Except.ok s : Except String Atlas) with
  | .error e => .error e
  | .ok s1 =>
    if u32Bound ≤ s1.h_offset + width then
      .error "attempt to add with overflow"
    else if s1.h_offset + width < s1.h_size then
      .ok ((s1.h_offset, s1.v_offset), { s1 with h_offset := s1.h_offset + width })
    else
      .ok ((s1.h_offset, s1.v_offset), s1)

/-- `Atlas::get_or_create_texture`: pushes a fresh page when the active
index is past the end of the texture vector; always returns `some` index. -/
def getOrCreateTexture (s : Atlas) : Option ℕ × Atlas :=
  if s.textures ≤ s.active_texture then
    (some s.textures,
     { s with textures := s.textures + 1, active_texture := s.textures })
  else
    (some s.active_texture, s)

/-- The RGB arm of the `// Convert to rgba` match in `get_glyph`
(`src/atlas.rs:100-116`): `v.chunks(3)`, each full 3-chunk `[r,g,b]`
becomes `r, g, b, max(max(r,g),b)`; a trailing short chunk only logs
"Not chunk aligned" and contributes nothing. -/
def rgbChunks : List ℕ → List ℕ
  | r :: g :: b :: rest => r :: g :: b :: max (max r g) b :: rgbChunks rest
  | _ => []

/-- The `// Convert to rgba` match in `get_glyph`: RGBA passes through,
RGB goes through `rgbChunks`. -/
def toRgba : BitmapBuffer → List ℕ
  | .rgba v => v
  | .rgb v => rgbChunks v

/-- One recorded `queue.write_texture` call: origin, copy extent, bytes. -/
structure TexWrite where
  x : ℕ
  y : ℕ
  width : ℕ
  height : ℕ
  bytes : List ℕ
  deriving DecidableEq

/-- Result of one `get_glyph` call: the returned `Option<Glyph>`, the
state after the call, whether the rasterizer was invoked, and the GPU
texture writes issued. -/
structure GetGlyphOut where
  result : Option Glyph
  atlas : Atlas
  rasterized : Bool
  writes : List TexWrite
  deriving DecidableEq

/-- `Atlas::get_glyph` (`src/atlas.rs:79-161`). The rasterizer is the pair
of functions `rasterize` (`Rasterizer::get_glyph`) and `metrics`
(`Rasterizer::metrics`); `none` from either models the `Err` that the
source `unwrap`s. -/
def getGlyph (rasterize : GlyphKey → Option RasterizedGlyph)
    (metrics : ℕ → ℚ → Option Metrics)
    (s : Atlas) (key : GlyphKey) : Except String GetGlyphOut :=
  if (lookupGlyph key s.glyphs).isSome then
    .ok { result := match lookupGlyph key s.glyphs with
                    | some g => some g
                    | none => none
          atlas := s
          rasterized := false
          writes := [] }
  else
    match rasterize key with
    | none => .error "rasterizer get_glyph unwrap failed"
    | some rast_glyph =>
      match locationFor s (asU32 rast_glyph.width) (asU32 rast_glyph.height) with
      | .error e => .error e
      | .ok ((target_x, target_y), s1) =>
        match metrics key.font_key key.size with
        | none => .error "metrics unwrap failed"
        | some m =>
          match getOrCreateTexture s1 with
          | (none, _) => .error "get_or_create_texture unwrap failed"
          | (some _tex, s2) =>
            let buff := toRgba rast_glyph.buffer
            let write : TexWrite :=
              { x := target_x
                y := target_y
                width := asU32 rast_glyph.width
                height := asU32 rast_glyph.height
                bytes := buff }
            let g : Glyph :=
              { uv_top := (target_y : ℚ) / (s2.v_size : ℚ)
                uv_left := (target_x : ℚ) / (s2.h_size : ℚ)
                uv_height := (rast_glyph.height : ℚ) / (s2.v_size : ℚ)
                uv_width := (rast_glyph.width : ℚ) / (s2.h_size : ℚ)
                top := (rast_glyph.top : ℚ) - m.descent
                left := (rast_glyph.left : ℚ)
                width := (rast_glyph.width : ℚ)
                height := (rast_glyph.height : ℚ) }
            let s3 := { s2 with glyphs := (key, g) :: s2.glyphs }
            .ok { result := match lookupGlyph key s3.glyphs with
                            | some g => some g
                            | none => none
                  atlas := s3
                  rasterized := true
                  writes := [write] }

/-- A sequence of `location_for` calls threading the packer state, as the
repeated cache-miss path produces; stops at the first abort. -/
def runPlacements (s : Atlas) :
    List (ℕ × ℕ) → Except String (List (ℕ × ℕ) × Atlas)
  | [] => .ok ([], s)
  | (w, h) :: rest =>
    match locationFor s w h with
    | .error e => .error e
    | .ok (xy, s') =>
      match runPlacements s' rest with
      | .error e => .error e
      | .ok (ps, s'') => .ok (xy :: ps, s'')

/-- A pixel rectangle in a texture page. -/
structure Rect where
  x : ℕ
  y : ℕ
  width : ℕ
  height : ℕ
  deriving DecidableEq

/-- Pixel membership in a rectangle. -/
def Rect.contains (r : Rect) (px py : ℕ) : Prop :=
  r.x ≤ px ∧ px < r.x + r.width ∧ r.y ≤ py ∧ py < r.y + r.height

instance (r : Rect) (px py : ℕ) : Decidable (r.contains px py) := by
  unfold Rect.contains; infer_instance

/-- Two rectangles are disjoint when no pixel lies in both. -/
def Rect.disjoint (a b : Rect) : Prop :=
  ∀ px py : ℕ, ¬ (a.contains px py ∧ b.contains px py)

deriving instance DecidableEq for Except

/-- The complete leading 3-byte pixels of a byte buffer. -/
def tripleChunks : List ℕ → List (ℕ × ℕ × ℕ)
  | r :: g :: b :: rest => (r, g, b) :: tripleChunks rest
  | _ => []

/-- Modelled from the spec (§4.3), for comparison with the source
normaliser `rgbChunks`: "RGB input: for each pixel, emit
`(r, g, b, max(r,g,b))`". -/
def specPixelsToRgba : List (ℕ × ℕ × ℕ) → List ℕ
  | [] => []
  | (r, g, b) :: rest => r :: g :: b :: max r (max g b) :: specPixelsToRgba rest

/-- A metrics table for concrete scenarios (descent `-2`). -/
def stdMetrics : ℕ → ℚ → Option Metrics := fun _ _ =>
  some { average_advance := 8, line_height := 20, descent := -2 }

/-- The packer state of the spec §8 scenario: a 100×100 page whose current
shelf has `row_height = 20` and `h_offset = 10`. -/
def c2State : Atlas :=
  { atlasNew with h_size := 100, v_size := 100, row_height := 20, h_offset := 10 }

/-- The packer state after `runPlacements atlasNew [(1,100),(1,3000),(1,4000)]`. -/
def c4End : Atlas :=
  { atlasNew with v_offset := 3100, row_height := 4000, h_offset := 3 }

/-- Key of a first glyph (character 'a'). -/
def aKey : GlyphKey := { font_key := 0, character := 'a', size := 12 }

/-- Key of a second glyph (character 'b'). -/
def bKey : GlyphKey := { font_key := 0, character := 'b', size := 12 }

/-- A rasterizer for the UV-overflow scenario: 'a' is a 4095×10 bitmap,
every other character a 10×10 bitmap. -/
def c3Rast : GlyphKey → Option RasterizedGlyph := fun k =>
  if k.character = 'a' then
    some { character := 'a', width := 4095, height := 10, top := 0, left := 0,
           buffer := .rgba [] }
  else
    some { character := 'b', width := 10, height := 10, top := 0, left := 0,
           buffer := .rgba [] }

/-- The glyph returned by the second `get_glyph` call of the UV-overflow
scenario: first 'a' (4095×10), then 'b' (10×10), on a fresh atlas. -/
def c3SecondGlyph : Option Glyph :=
  match getGlyph c3Rast stdMetrics atlasNew aKey with
  | .error _ => none
  | .ok o1 =>
    match getGlyph c3Rast stdMetrics o1.atlas bKey with
    | .error _ => none
    | .ok o2 => o2.result

/-- A rasterizer whose bitmap is a 1×1 RGB buffer of 4 bytes: its length
is not a multiple of 3. -/
def c7Rast : GlyphKey → Option RasterizedGlyph := fun _ =>
  some { character := 'a', width := 1, height := 1, top := 0, left := 0,
         buffer := .rgb [10, 20, 30, 40] }

/-- A rasterizer producing a 2×3 RGBA bitmap for every key. -/
def wRast : GlyphKey → Option RasterizedGlyph := fun _ =>
  some { character := 'a', width := 2, height := 3, top := 1, left := 0,
         buffer := .rgba [] }

/-- The glyph record `get_glyph wRast stdMetrics atlasNew aKey` caches. -/
def wGlyph : Glyph :=
  { uv_top := 0, uv_left := 0, uv_width := 1 / 2048, uv_height := 3 / 4096,
    width := 2, height := 3, top := 3, left := 0 }

/-- The full result of `get_glyph wRast stdMetrics atlasNew aKey`. -/
def wOut : GetGlyphOut :=
  { result := some wGlyph
    atlas := { glyphs := [(aKey, wGlyph)], textures := 1, active_texture := 0,
               v_offset := 0, h_offset := 2, row_height := 3,
               h_size := 4096, v_size := 4096 }
    rasterized := true
    writes := [{ x := 0, y := 0, width := 2, height := 3, bytes := [] }] }

/-- A shelf state with a 5-pixel-high current shelf, for the shelf-growth
witness. -/
def c8State : Atlas := { atlasNew with row_height := 5 }

/-- The state after `locationFor c8State 7 9`: the shelf grew. -/
def c8End : Atlas :=
  { atlasNew with v_offset := 5, row_height := 9, h_offset := 7 }

/-- Looking up a key right after inserting it returns the inserted glyph. -/
theorem lookupGlyph_cons_self (key : GlyphKey) (g : Glyph) (m : List (GlyphKey × Glyph)) :
    lookupGlyph key ((key, g) :: m) = some g := by
  simp [lookupGlyph]

/-- After a non-aborting `get_glyph` call, the returned option is exactly
the cache entry of the key, and it is `some`. -/
theorem getGlyph_ok_spec (rast : GlyphKey → Option RasterizedGlyph)
    (metr : ℕ → ℚ → Option Metrics) (s : Atlas) (key : GlyphKey) (out : GetGlyphOut)
    (h : getGlyph rast metr s key = .ok out) :
    lookupGlyph key out.atlas.glyphs = out.result ∧ out.result.isSome = true := by
  rcases hl : lookupGlyph key s.glyphs with _ | g
  · rcases hr : rast key with _ | rg
    · simp [getGlyph, hl, hr] at h
    · rcases hLoc : locationFor s (asU32 rg.width) (asU32 rg.height) with e | ⟨⟨tx, ty⟩, s1⟩
      · simp [getGlyph, hl, hr, hLoc] at h
      · rcases hm : metr key.font_key key.size with _ | m
        · simp [getGlyph, hl, hr, hLoc, hm] at h
        · rcases hT : getOrCreateTexture s1 with ⟨t?, s2⟩
          rcases t? with _ | t
          · simp [getGlyph, hl, hr, hLoc, hm, hT] at h
          · simp only [getGlyph, hl, hr, hLoc, hm, hT, Option.isSome_none,
              Bool.false_eq_true, if_false, Except.ok.injEq] at h
            subst h
            simp [lookupGlyph]
  · simp only [getGlyph, hl, Option.isSome_some, if_true, Except.ok.injEq] at h
    subst h
    simp [hl]

/-- A successful `location_for` call never moves `h_offset` backwards, and
the returned x coordinate is the entry value of `h_offset`. -/
theorem locationFor_step (s : Atlas) (w h : ℕ) (xy : ℕ × ℕ) (s' : Atlas)
    (hok : locationFor s w h = .ok (xy, s')) :
    s.h_offset ≤ s'.h_offset ∧ xy.1 = s.h_offset := by
  unfold locationFor at hok
  rcases hstep : (if s.row_height < h then
      if u32Bound ≤ s.v_offset + s.row_height then
        Except.error "attempt to add with overflow"
      else if s.v_offset + s.row_height > h then
        Except.error "Ran out of texture space"
      else
        Except.ok { s with v_offset := s.v_offset + s.row_height,
                           row_height := h }
    else Except.ok s : Except String Atlas) with e | s1
  · rw [hstep] at hok; simp at hok
  · have hh : s1.h_offset = s.h_offset := by
      split at hstep
      · split at hstep
        · simp at hstep
        · split at hstep
          · simp at hstep
          · simp only [Except.ok.injEq] at hstep; subst hstep; rfl
      · simp only [Except.ok.injEq] at hstep; subst hstep; rfl
    simp only [hstep] at hok
    split at hok
    · simp at hok
    · split at hok
      · simp only [Except.ok.injEq, Prod.mk.injEq] at hok
        obtain ⟨hxy, hs'⟩ := hok
        subst hs'
        refine ⟨?_, by rw [← hxy, hh]⟩
        simp only [hh]
        omega
      · simp only [Except.ok.injEq, Prod.mk.injEq] at hok
        obtain ⟨hxy, hs'⟩ := hok
        subst hs'
        exact ⟨le_of_eq hh.symm, by rw [← hxy, hh]⟩

/-- Across a whole successful placement sequence, `h_offset` never
decreases. -/
theorem runPlacements_hOffset_mono :
    ∀ (reqs : List (ℕ × ℕ)) (s : Atlas) (ps : List (ℕ × ℕ)) (s' : Atlas),
      runPlacements s reqs = .ok (ps, s') → s.h_offset ≤ s'.h_offset
  | [], s, ps, s', h => by
      simp only [runPlacements, Except.ok.injEq, Prod.mk.injEq] at h
      obtain ⟨-, hs⟩ := h; subst hs; exact le_rfl
  | (w, hh) :: rest, s, ps, s', h => by
      simp only [runPlacements] at h
      rcases hLoc : locationFor s w hh with e | ⟨xy, s1⟩
      · simp only [hLoc] at h
        exact Except.noConfusion h
      · simp only [hLoc] at h
        rcases hrun : runPlacements s1 rest with e | ⟨ps2, s2⟩
        · simp only [hrun] at h
          exact Except.noConfusion h
        · simp only [hrun, Except.ok.injEq, Prod.mk.injEq] at h
          obtain ⟨-, hs⟩ := h; subst hs
          exact le_trans (locationFor_step s w hh xy s1 hLoc).1
            (runPlacements_hOffset_mono rest s1 ps2 s2 hrun)

/-- The source RGB normaliser agrees with the spec description on the
complete 3-byte pixels. -/
theorem rgbChunks_eq_spec : ∀ v : List ℕ, rgbChunks v = specPixelsToRgba (tripleChunks v)
  | [] => rfl
  | [_] => rfl
  | [_, _] => rfl
  | r :: g :: b :: rest => by
      simp [rgbChunks, tripleChunks, specPixelsToRgba, rgbChunks_eq_spec rest, max_assoc]

/-- The RGB normaliser emits four bytes per complete 3-byte pixel. -/
theorem rgbChunks_length : ∀ v : List ℕ, (rgbChunks v).length = 4 * (v.length / 3)
  | [] => rfl
  | [_] => by simp [rgbChunks]
  | [_, _] => by simp [rgbChunks]
  | r :: g :: b :: rest => by
      simp [rgbChunks, rgbChunks_length rest, List.length]
      omega

/-- The RGB normaliser only reads the complete leading 3-byte pixels:
trailing bytes are dropped. -/
theorem rgbChunks_take : ∀ v : List ℕ, rgbChunks (v.take (3 * (v.length / 3))) = rgbChunks v
  | [] => rfl
  | [_] => by simp [rgbChunks]
  | [_, _] => by simp [rgbChunks]
  | r :: g :: b :: rest => by
      have h3 : 3 * ((r :: g :: b :: rest).length / 3) = 3 * (rest.length / 3) + 3 := by
        simp [List.length]; omega
      rw [h3]
      simp [List.take, rgbChunks, rgbChunks_take rest]

/-- Extra scenario state for the `h_offset` monotonicity witness: the
state after `runPlacements atlasNew [(5,7),(9,20)]`. -/
def c9End : Atlas :=
  { atlasNew with v_offset := 7, row_height := 20, h_offset := 14 }

/-- The full result of `get_glyph wRast stdMetrics atlasNew bKey`. -/
def c10Out : GetGlyphOut :=
  { result := some wGlyph
    atlas := { glyphs := [(bKey, wGlyph)], textures := 1, active_texture := 0,
               v_offset := 0, h_offset := 2, row_height := 3,
               h_size := 4096, v_size := 4096 }
    rasterized := true
    writes := [{ x := 0, y := 0, width := 2, height := 3, bytes := [] }] }

/-- C1: the claim "for any sequence of placements into a single page, the
returned rectangles are pairwise disjoint" fails on the code: on a fresh
4096×4096 page, two successive 4096×10 requests hit the horizontally-full
branch of `location_for`, which returns the cursor unchanged instead of
opening a new shelf, so both requests get the rectangle (0,0,4096,10) and
the two returned rectangles overlap (e.g. at pixel (0,0)). -/
theorem C1_overlapping_placements :
    runPlacements atlasNew [(4096, 10), (4096, 10)] =
      .ok ([(0, 0), (0, 0)], { atlasNew with row_height := 10 }) ∧
    ¬ Rect.disjoint { x := 0, y := 0, width := 4096, height := 10 }
        { x := 0, y := 0, width := 4096, height := 10 } :=
  ⟨by decide, fun hd => hd 0 0 ⟨by decide, by decide⟩⟩

/-- C2: the claim "a request that does not fit the remaining row width
closes the row, opens a new shelf below, and retries — on a 100×100 page
with row height 20 and h_offset 10, a 95×20 request returns (0,20)" fails
on the code: `location_for` returns (10,0) with the state unchanged, a
placement whose right edge 10+95 lies outside the page width 100. -/
theorem C2_row_not_closed :
    locationFor c2State 95 20 = .ok ((10, 0), c2State) ∧
    ((10 : ℕ), (0 : ℕ)) ≠ (0, 20) ∧ c2State.h_size < 10 + 95 := by decide

/-- C3: the claim "every glyph returned by `get_glyph` satisfies
`uv_left + uv_width ≤ 1`" fails on the code: after a 4095×10 glyph, a
10×10 glyph is placed at x = 4095 on the 4096-wide page, and its returned
record has `uv_left + uv_width = 4105/4096 > 1`. -/
theorem C3_uv_range_violated :
    c3SecondGlyph.map (fun g => g.uv_left + g.uv_width) = some ((4105 : ℚ) / 4096) ∧
    (1 : ℚ) < 4105 / 4096 := by
  constructor
  · simp [c3SecondGlyph, getGlyph, locationFor, getOrCreateTexture, lookupGlyph, atlasNew,
      asU32, u32Bound, c3Rast, stdMetrics, aKey, bKey, toRgba, rgbChunks, DEFAULT_TEXTURE_SIZE]
    norm_num
  · norm_num

/-- C4: the claim "the allocator fails exactly when the new shelf's
vertical extent would exceed the page height" fails on the code in both
directions, because the check compares `v_offset + row_height` with the
*requested height* instead of the page height: requests (1,50),(1,60),(1,70)
abort although the new shelf (top 110, bottom 180) fits the 4096-high page,
while requests (1,100),(1,3000),(1,4000) succeed although the last
placement (top 3100, height 4000) ends past the page height. -/
theorem C4_page_full_check_wrong :
    runPlacements atlasNew [(1, 50), (1, 60), (1, 70)] = .error "Ran out of texture space" ∧
    50 + 60 + 70 ≤ atlasNew.v_size ∧
    runPlacements atlasNew [(1, 100), (1, 3000), (1, 4000)] =
      .ok ([(0, 0), (1, 100), (2, 3100)], c4End) ∧
    atlasNew.v_size < 3100 + 4000 := by decide

/-- C5: cache idempotence. If a `get_glyph` call returns normally, then a
second call with the same key returns the identical placement record,
leaves the whole atlas state (cache, packer cursor, textures) unchanged,
invokes no rasterization, and issues no GPU texture write. -/
theorem C5_cache_idempotent (rast : GlyphKey → Option RasterizedGlyph)
    (metr : ℕ → ℚ → Option Metrics) (s : Atlas) (key : GlyphKey) (o1 : GetGlyphOut)
    (h : getGlyph rast metr s key = .ok o1) :
    getGlyph rast metr o1.atlas key =
      .ok { result := o1.result, atlas := o1.atlas, rasterized := false, writes := [] } := by
  obtain ⟨hl, hs⟩ := getGlyph_ok_spec rast metr s key o1 h
  obtain ⟨g, hg⟩ := Option.isSome_iff_exists.mp hs
  rw [hg] at hl
  unfold getGlyph
  rw [hl]
  simp [hg]

/-- Witness for C5 at a concrete rasterizer, metrics table and key. -/
theorem C5_witness :
    getGlyph wRast stdMetrics atlasNew aKey = .ok wOut ∧
    getGlyph wRast stdMetrics wOut.atlas aKey =
      .ok { result := wOut.result, atlas := wOut.atlas, rasterized := false, writes := [] } :=
  ⟨by
    simp [getGlyph, locationFor, getOrCreateTexture, lookupGlyph, atlasNew,
      asU32, u32Bound, wRast, stdMetrics, aKey, toRgba, DEFAULT_TEXTURE_SIZE, wOut, wGlyph]
    norm_num,
   C5_cache_idempotent wRast stdMetrics atlasNew aKey wOut (by
    simp [getGlyph, locationFor, getOrCreateTexture, lookupGlyph, atlasNew,
      asU32, u32Bound, wRast, stdMetrics, aKey, toRgba, DEFAULT_TEXTURE_SIZE, wOut, wGlyph]
    norm_num)⟩

/-- C6: RGB buffers whose length is a multiple of 3 normalise pixelwise to
`(r, g, b, max(r,g,b))`; the spec's example buffer gives exactly the spec's
expected output; RGBA buffers pass through unchanged. -/
theorem C6_rgb_normalisation :
    (∀ v : List ℕ, v.length % 3 = 0 →
      toRgba (.rgb v) = specPixelsToRgba (tripleChunks v)) ∧
    toRgba (.rgb [10, 20, 30, 0, 0, 0]) = [10, 20, 30, 30, 0, 0, 0, 0] ∧
    (∀ v : List ℕ, toRgba (.rgba v) = v) :=
  ⟨fun v _ => rgbChunks_eq_spec v, by decide, fun _ => rfl⟩

/-- Witness for C6 at the concrete aligned buffer `[10,20,30]`. -/
theorem C6_witness :
    ([10, 20, 30] : List ℕ).length % 3 = 0 ∧
    toRgba (.rgb [10, 20, 30]) = specPixelsToRgba (tripleChunks [10, 20, 30]) :=
  ⟨by decide, C6_rgb_normalisation.1 [10, 20, 30] (by decide)⟩

/-- C7 counterexample: the claim "an RGB buffer whose length is not a
multiple of 3 surfaces an explicit error result from `get_glyph`" fails on
the code: for the 4-byte buffer `[10,20,30,40]` the call returns a
placement record, and the uploaded bytes `[10,20,30,30]` show the trailing
byte was silently dropped. -/
theorem C7_no_error_on_misaligned :
    (getGlyph c7Rast stdMetrics atlasNew aKey).map
        (fun o => (o.result.isSome, o.writes.map (fun w => w.bytes))) =
      .ok (true, [[10, 20, 30, 30]]) ∧
    ([10, 20, 30, 40] : List ℕ).length % 3 ≠ 0 := by
  constructor
  · simp [getGlyph, locationFor, getOrCreateTexture, lookupGlyph, atlasNew, Except.map,
      asU32, u32Bound, c7Rast, stdMetrics, aKey, toRgba, rgbChunks, DEFAULT_TEXTURE_SIZE]
  · decide

/-- C7 as amended: on an RGB buffer whose length is not a multiple of 3,
normalisation drops the incomplete trailing chunk (after logging a
diagnostic), emitting the `(r,g,b,max)` expansion of just the complete
3-byte pixels — `4 * ⌊len/3⌋` output bytes — and `get_glyph` proceeds
rather than erroring (see `C7_no_error_on_misaligned`). -/
theorem C7_trailing_dropped (v : List ℕ) (_hv : v.length % 3 ≠ 0) :
    toRgba (.rgb v) = toRgba (.rgb (v.take (3 * (v.length / 3)))) ∧
    (toRgba (.rgb v)).length = 4 * (v.length / 3) ∧
    toRgba (.rgb v) = specPixelsToRgba (tripleChunks v) :=
  ⟨(rgbChunks_take v).symm, rgbChunks_length v, rgbChunks_eq_spec v⟩

/-- Witness for the amended C7 at the concrete buffer `[10,20,30,40]`. -/
theorem C7_witness :
    ([10, 20, 30, 40] : List ℕ).length % 3 ≠ 0 ∧
    (toRgba (.rgb [10, 20, 30, 40])).length =
      4 * (([10, 20, 30, 40] : List ℕ).length / 3) :=
  ⟨by decide, (C7_trailing_dropped [10, 20, 30, 40] (by decide)).2.1⟩

/-- C8: when a request is taller than the current shelf and `location_for`
does not abort, the shelf grows: `v_offset` advances by exactly the
previous `row_height`, `row_height` becomes the requested height, the
returned y coordinate is the new shelf top, and the whole call equals the
horizontal-placement step run from the grown state. -/
theorem C8_shelf_growth (s : Atlas) (w h : ℕ) (xy : ℕ × ℕ) (s' : Atlas)
    (hrow : s.row_height < h)
    (hok : locationFor s w h = .ok (xy, s')) :
    s'.v_offset = s.v_offset + s.row_height ∧ s'.row_height = h ∧
    xy.2 = s.v_offset + s.row_height ∧
    locationFor s w h =
      locationFor { s with v_offset := s.v_offset + s.row_height, row_height := h } w h := by
  by_cases hov : u32Bound ≤ s.v_offset + s.row_height
  · unfold locationFor at hok
    rw [if_pos hrow, if_pos hov] at hok
    simp at hok
  · by_cases hfull : s.v_offset + s.row_height > h
    · unfold locationFor at hok
      rw [if_pos hrow, if_neg hov, if_pos hfull] at hok
      simp at hok
    · have hred : locationFor s w h =
          locationFor { s with v_offset := s.v_offset + s.row_height, row_height := h } w h := by
        conv_lhs => unfold locationFor
        conv_rhs => unfold locationFor
        rw [if_pos hrow, if_neg hov, if_neg hfull, if_neg (lt_irrefl h)]
      rw [hred] at hok
      refine ⟨?_, ?_, ?_, hred⟩ <;>
        · unfold locationFor at hok
          rw [if_neg (lt_irrefl h)] at hok
          simp only [] at hok
          split at hok
          · simp at hok
          · split at hok <;>
            · simp only [Except.ok.injEq, Prod.mk.injEq] at hok
              obtain ⟨hxy, hs'⟩ := hok
              subst hs'
              simp [← hxy]

/-- Witness for C8: a 7×9 request against a 5-pixel-high shelf. -/
theorem C8_witness :
    c8State.row_height < 9 ∧
    (c8End.v_offset = c8State.v_offset + c8State.row_height ∧
      c8End.row_height = 9 ∧
      ((0 : ℕ), (5 : ℕ)).2 = c8State.v_offset + c8State.row_height ∧
      locationFor c8State 7 9 =
        locationFor { c8State with v_offset := c8State.v_offset + c8State.row_height,
                                   row_height := 9 } 7 9) :=
  ⟨by decide, C8_shelf_growth c8State 7 9 (0, 5) c8End (by decide) (by decide)⟩

/-- C9: `h_offset` is never reset: every successful `location_for` step
leaves it no smaller and places at the inherited cursor x (so a shelf
opened by a taller request starts at the previous shelf's cursor), and
over any successful placement sequence the final `h_offset` is at least
the initial one. -/
theorem C9_hOffset_monotone :
    (∀ (s : Atlas) (w h : ℕ) (xy : ℕ × ℕ) (s' : Atlas),
      locationFor s w h = .ok (xy, s') → s.h_offset ≤ s'.h_offset ∧ xy.1 = s.h_offset) ∧
    (∀ (reqs : List (ℕ × ℕ)) (s : Atlas) (ps : List (ℕ × ℕ)) (s' : Atlas),
      runPlacements s reqs = .ok (ps, s') → s.h_offset ≤ s'.h_offset) :=
  ⟨locationFor_step, runPlacements_hOffset_mono⟩

/-- Witness for C9: a sequence whose second request grows the shelf. -/
theorem C9_witness :
    runPlacements atlasNew [(5, 7), (9, 20)] = .ok ([(0, 0), (5, 7)], c9End) ∧
    atlasNew.h_offset ≤ c9End.h_offset :=
  ⟨by decide,
   C9_hOffset_monotone.2 [(5, 7), (9, 20)] atlasNew [(0, 0), (5, 7)] c9End (by decide)⟩

/-- C10: whenever `get_glyph` returns normally it returns `some` record:
on a hit the guarded lookup is `some`, and on a miss the record is
inserted immediately before the final lookup of the same key, so the
`None` arm of the source's final `match` is unreachable. -/
theorem C10_ok_implies_some (rast : GlyphKey → Option RasterizedGlyph)
    (metr : ℕ → ℚ → Option Metrics) (s : Atlas) (key : GlyphKey) (out : GetGlyphOut)
    (h : getGlyph rast metr s key = .ok out) : ∃ g, out.result = some g :=
  Option.isSome_iff_exists.mp (getGlyph_ok_spec rast metr s key out h).2

/-- Witness for C10 at a concrete rasterizer and key. -/
theorem C10_witness : ∃ g, c10Out.result = some g :=
  C10_ok_implies_some wRast stdMetrics atlasNew bKey c10Out (by
    simp [getGlyph, locationFor, getOrCreateTexture, lookupGlyph, atlasNew,
      asU32, u32Bound, wRast, stdMetrics, bKey, toRgba, DEFAULT_TEXTURE_SIZE, c10Out, wGlyph]
    norm_num)
